import Mathlib

/-!
Shallow embedding of `src/main.py` from the hi-sqlalchemy repository.

The script is a linear sequence of database API calls over a single
SQLite-backed `user` table, exercised at four abstraction levels:
raw textual SQL (lines 12-54), the core query builder (lines 57-97),
the declarative ORM (lines 100-141) and sqlmodel (lines 144-179).

We model the database as an optional list of rows (the `user` table,
absent until created), with SQLite auto-assignment of the
INTEGER PRIMARY KEY (max existing id plus one, so 1, 2, ... for the
append-only inserts of this script).  Sessions keep a list of pending
(added but not yet flushed) objects; queries autoflush.  The dob cell
is stored as text: the raw-text insert goes through the default
pysqlite datetime adapter (ISO rendering, offset kept in the text),
while the typed layers go through the SQLAlchemy SQLite DATETIME bind
processor, which renders only the naive wall-clock fields; typed
selects parse that text back into naive datetimes, and the raw-text
select returns the stored string unprocessed.  Each
effectful line of the script becomes one constructor of `Op`, and the
whole script is the concrete list `script`.  The interpreter `runOps`
threads the state and aborts on the first failing statement, exactly
as an uncaught Python exception would.
-/

/-- A timezone-aware or naive timestamp, as produced by
`datetime.datetime.fromisoformat` in the script.  The offset is in
minutes east of UTC; `+05:30` is 330. -/
structure Datetime where
  year : Nat
  month : Nat
  day : Nat
  hour : Nat
  minute : Nat
  second : Nat
  microsecond : Nat
  tzOffsetMinutes : Option Int
deriving DecidableEq, Repr

/-- Source: `datetime.fromisoformat("2000-01-01T13:59:00.000+05:30")`, line 33. -/
def dobRawAlice : Datetime := ⟨2000, 1, 1, 13, 59, 0, 0, some 330⟩

/-- Source: `datetime.fromisoformat("2000-12-13T14:00:30+05:30")`, line 76. -/
def dobCoreAlice : Datetime := ⟨2000, 12, 13, 14, 0, 30, 0, some 330⟩

/-- Source: `datetime.fromisoformat("2000-04-23T16:34:53+05:30")`, line 80. -/
def dobCoreBob : Datetime := ⟨2000, 4, 23, 16, 34, 53, 0, some 330⟩

/-- Source: `datetime.fromisoformat("1999-11-30T14:00:39.293200+05:30")`, line 124. -/
def dobOrmAlice : Datetime := ⟨1999, 11, 30, 14, 0, 39, 293200, some 330⟩

/-- Source: `datetime.fromisoformat("2001-04-01T03:40:02+05:30")`, line 130. -/
def dobOrmBob : Datetime := ⟨2001, 4, 1, 3, 40, 2, 0, some 330⟩

/-- Source: `datetime.fromisoformat("2023-01-05T23:44:18+05:30")`, lines 157 and 160. -/
def dobSm : Datetime := ⟨2023, 1, 5, 23, 44, 18, 0, some 330⟩

/-- Drop the timezone information, keeping the wall-clock fields. -/
def stripOffset (d : Datetime) : Datetime :=
  { d with tzOffsetMinutes := none }

/-- Zero-pad a number to a fixed width of digits. -/
def padDigits (w : Nat) (n : Nat) : String :=
  (List.replicate (w - (toString n).length) '0').asString ++ toString n

/-- Render a UTC offset the way Python `datetime.isoformat` does,
`+HH:MM` or `-HH:MM`. -/
def offsetText (off : Int) : String :=
  (if off < 0 then "-" else "+") ++
    padDigits 2 (off.natAbs / 60) ++ ":" ++ padDigits 2 (off.natAbs % 60)

/-- What the sqlite driver stores for a datetime bound through a plain
`sa.text` statement (raw layer, line 33): the default pysqlite adapter
renders `isoformat(" ")`, fraction omitted when zero, offset included
when the value is aware. -/
def pysqliteIsoAdapter (d : Datetime) : String :=
  padDigits 4 d.year ++ "-" ++ padDigits 2 d.month ++ "-" ++ padDigits 2 d.day ++
    " " ++ padDigits 2 d.hour ++ ":" ++ padDigits 2 d.minute ++ ":" ++
    padDigits 2 d.second ++
    (if d.microsecond = 0 then "" else "." ++ padDigits 6 d.microsecond) ++
    (match d.tzOffsetMinutes with
     | none => ""
     | some off => offsetText off)

/-- What the SQLAlchemy SQLite DATETIME bind processor stores for a
datetime bound through a typed `DateTime` column (core, ORM and
sqlmodel layers): only the naive wall-clock fields, in the storage
format `YYYY-MM-DD HH:MM:SS.ffffff`.  The timezone offset is dropped. -/
def sqliteDateTimeBind (d : Datetime) : String :=
  padDigits 4 d.year ++ "-" ++ padDigits 2 d.month ++ "-" ++ padDigits 2 d.day ++
    " " ++ padDigits 2 d.hour ++ ":" ++ padDigits 2 d.minute ++ ":" ++
    padDigits 2 d.second ++ "." ++ padDigits 6 d.microsecond

/-- Split a character list at every occurrence of a separator. -/
def splitOnChar (sep : Char) : List Char → List (List Char)
  | [] => [[]]
  | c :: cs =>
    if c = sep then [] :: splitOnChar sep cs
    else
      match splitOnChar sep cs with
      | [] => [[c]]
      | r :: rs => (c :: r) :: rs

/-- Read a non-empty run of decimal digits as a number. -/
def digitsToNat : List Char → Option Nat
  | [] => none
  | cs =>
    cs.foldl
      (fun acc c =>
        match acc with
        | none => none
        | some n => if c.isDigit then some (n * 10 + (c.toNat - 48)) else none)
      (some 0)

/-- What the SQLAlchemy SQLite DATETIME result processor turns a stored
text cell back into: the date and time fields read from the storage
format, as a naive datetime (no offset is ever recovered). -/
def sqliteDateTimeResult (s : String) : Option Datetime :=
  match splitOnChar ' ' s.toList with
  | [datePart, timePart] =>
    match splitOnChar '-' datePart with
    | [ys, mos, ds] =>
      match splitOnChar ':' timePart with
      | [hs, mis, rest] =>
        match splitOnChar '.' rest with
        | [ss, uss] => do
          let y ← digitsToNat ys
          let mo ← digitsToNat mos
          let d ← digitsToNat ds
          let h ← digitsToNat hs
          let mi ← digitsToNat mis
          let sec ← digitsToNat ss
          let us ← digitsToNat uss
          some ⟨y, mo, d, h, mi, sec, us, none⟩
        | [ss] => do
          let y ← digitsToNat ys
          let mo ← digitsToNat mos
          let d ← digitsToNat ds
          let h ← digitsToNat hs
          let mi ← digitsToNat mis
          let sec ← digitsToNat ss
          some ⟨y, mo, d, h, mi, sec, 0, none⟩
        | _ => none
      | _ => none
    | _ => none
  | _ => none

/-- A stored row of the `user` table: `id INTEGER PRIMARY KEY`,
`name TEXT`, `dob DATETIME` (lines 16-20, 61-67, 107-112, 147-150).
SQLite keeps the dob cell as text: whatever the bind path rendered. -/
structure UserRow where
  id : Nat
  name : String
  dob : String
deriving DecidableEq, Repr

/-- The dob value a query hands back to Python: the raw-text select
applies no result processing and yields the stored string; the typed
selects of the core, ORM and sqlmodel layers yield parsed (naive)
datetimes. -/
inductive PyDob where
  | str (s : String)
  | stamp (d : Datetime)
deriving DecidableEq, Repr

/-- A row as a query returns it to Python. -/
structure PyRow where
  id : Nat
  name : String
  dob : PyDob
deriving DecidableEq, Repr

/-- The raw-text select (line 38) returns each row with its dob cell
as the stored string, unprocessed. -/
def rawRowOut (r : UserRow) : PyRow :=
  ⟨r.id, r.name, PyDob.str r.dob⟩

/-- The typed selects (lines 87, 134, 166, 175) run the DATETIME
result processor on the stored text. -/
def typedRowOut (r : UserRow) : Option PyRow :=
  (sqliteDateTimeResult r.dob).map fun d => ⟨r.id, r.name, PyDob.stamp d⟩

/-- The two kinds of session opened by the script: the declarative-ORM
`sessionmaker` session (line 119) and the sqlmodel session (line 153). -/
inductive SessKind where
  | orm
  | sqlmodel
deriving DecidableEq, Repr

/-- One effectful statement of the script. -/
inductive Op where
  /-- Source: `engine.connect()`, line 12. -/
  | connOpen
  /-- Source: `CREATE TABLE user` in any layer: lines 13-23, 69, 120, 154. -/
  | execCreateTable
  /-- A raw `sa.text` INSERT supplying only name and dob, lines 25-35;
  the driver adapts the datetime parameter to its ISO text. -/
  | execTextInsert (vals : List (String × Datetime))
  /-- A core `user_table.insert().values(...)` supplying only name and
  dob for each row, lines 71-84; the DATETIME bind processor renders
  the naive storage text. -/
  | execCoreInsert (vals : List (String × Datetime))
  /-- Source: `SELECT u.id, u.name, u.dob FROM user u`, lines 38-45. -/
  | execSelectAll
  /-- Source: `user_table.select().where(user_table.c.id < bound)`, line 87. -/
  | execSelectIdLt (bound : Nat)
  /-- Source: `DROP TABLE user` in any layer: lines 54, 95, 139, 179. -/
  | execDropTable
  /-- Source: `conn.close()`, line 97. -/
  | connClose
  /-- Opening a session context manager: lines 119 and 153. -/
  | sessionOpen (kind : SessKind)
  /-- Source: `s.add(...)` of a User built with only name and dob:
  lines 126, 132, 163, 171. -/
  | sessionAdd (name : String) (dob : Datetime)
  /-- Source: `s.flush()`, lines 127 and 164. -/
  | sessionFlush
  /-- Constructing a bare mapped instance without adding it to any
  session: `User()` on line 133.  It touches no database state. -/
  | constructDetached
  /-- Source: `s.execute(sa.select(User)).scalars().all()`, line 134
  (autoflushes, then returns all rows). -/
  | sessionSelectAll
  /-- Source: `s.exec(sm.select(User).where(sm.col(User.id) < bound))`,
  line 166 (autoflushes, then filters). -/
  | sessionSelectIdLt (bound : Nat)
  /-- Source: `s.commit()`, lines 141 and 173 (flushes pending adds). -/
  | sessionCommit
  /-- Source: `s.get(User, uid)`, line 175. -/
  | sessionGet (uid : Nat)
  /-- Leaving a session context manager: lines 141-142 and 179-end. -/
  | sessionClose (kind : SessKind)
deriving DecidableEq, Repr

/-- The interpreter state: the `user` table (`none` while absent), the
three open/closed flags of the raw connection and the two sessions,
and the pending (added, not yet flushed) objects of the open session. -/
structure ScriptState where
  table : Option (List UserRow)
  connIsOpen : Bool
  ormIsOpen : Bool
  smIsOpen : Bool
  pending : List (String × Datetime)
deriving DecidableEq, Repr

/-- Before the script runs: no table, nothing open, nothing pending. -/
def initState : ScriptState := ⟨none, false, false, false, []⟩

/-- Errors a statement can raise (an uncaught Python exception). -/
inductive ExecError where
  | notConnected
  | noSession
  | tableExists
  | noSuchTable
  | badStoredText
deriving DecidableEq, Repr

/-- Observable outcomes logged by the run: each query result set, each
`s.get` result, and each database-assigned primary key. -/
inductive Event where
  | queried (rows : List PyRow)
  | got (row : Option PyRow)
  | assigned (uid : Nat)
deriving DecidableEq, Repr

/-- SQLite INTEGER PRIMARY KEY auto-assignment: one more than the
largest id present (so 1 on an empty table). -/
def nextId (rows : List UserRow) : Nat :=
  (rows.map UserRow.id).foldr Nat.max 0 + 1

/-- Insert one (name, stored dob text) pair, auto-assigning the id.
The dob cell holds the text the bind path rendered. -/
def insertRow (rows : List UserRow) (v : String × String) :
    List UserRow × Nat :=
  let i := nextId rows
  (rows ++ [⟨i, v.1, v.2⟩], i)

/-- Insert several (name, stored dob text) pairs in order, returning
the assigned ids. -/
def insertMany (rows : List UserRow) (vals : List (String × String)) :
    List UserRow × List Nat :=
  vals.foldl
    (fun acc v =>
      let r := insertRow acc.1 v
      (r.1, acc.2 ++ [r.2]))
    (rows, [])

/-- True when some connection or session is open (DDL in the script
runs on whichever of them is current). -/
def anyHandle (st : ScriptState) : Bool :=
  st.connIsOpen || st.ormIsOpen || st.smIsOpen

/-- True when a session is open. -/
def anySession (st : ScriptState) : Bool :=
  st.ormIsOpen || st.smIsOpen

/-- Flush the pending session adds into the table, assigning ids; the
ORM and sqlmodel dob columns go through the DATETIME bind processor. -/
def flushPending (st : ScriptState) :
    Except ExecError (ScriptState × List Event) :=
  match st.pending with
  | [] => .ok (st, [])
  | vals =>
    match st.table with
    | none => .error .noSuchTable
    | some rows =>
      let r := insertMany rows (vals.map fun v => (v.1, sqliteDateTimeBind v.2))
      .ok ({ st with table := some r.1, pending := [] },
           r.2.map Event.assigned)

/-- One step of the script: the effect of a single statement, or the
exception it raises. -/
def step (st : ScriptState) : Op → Except ExecError (ScriptState × List Event)
  | .connOpen => .ok ({ st with connIsOpen := true }, [])
  | .execCreateTable =>
    if anyHandle st then
      match st.table with
      | some _ => .error .tableExists
      | none => .ok ({ st with table := some [] }, [])
    else .error .notConnected
  | .execTextInsert vals =>
    if st.connIsOpen then
      match st.table with
      | none => .error .noSuchTable
      | some rows =>
        let r := insertMany rows (vals.map fun v => (v.1, pysqliteIsoAdapter v.2))
        .ok ({ st with table := some r.1 }, r.2.map Event.assigned)
    else .error .notConnected
  | .execCoreInsert vals =>
    if st.connIsOpen then
      match st.table with
      | none => .error .noSuchTable
      | some rows =>
        let r := insertMany rows (vals.map fun v => (v.1, sqliteDateTimeBind v.2))
        .ok ({ st with table := some r.1 }, r.2.map Event.assigned)
    else .error .notConnected
  | .execSelectAll =>
    if st.connIsOpen then
      match st.table with
      | none => .error .noSuchTable
      | some rows => .ok (st, [.queried (rows.map rawRowOut)])
    else .error .notConnected
  | .execSelectIdLt bound =>
    if st.connIsOpen then
      match st.table with
      | none => .error .noSuchTable
      | some rows =>
        match (rows.filter (fun r => r.id < bound)).mapM typedRowOut with
        | none => .error .badStoredText
        | some out => .ok (st, [.queried out])
    else .error .notConnected
  | .execDropTable =>
    if anyHandle st then
      match st.table with
      | none => .error .noSuchTable
      | some _ => .ok ({ st with table := none }, [])
    else .error .notConnected
  | .connClose =>
    if st.connIsOpen then .ok ({ st with connIsOpen := false }, [])
    else .error .notConnected
  | .sessionOpen kind =>
    match kind with
    | .orm => .ok ({ st with ormIsOpen := true }, [])
    | .sqlmodel => .ok ({ st with smIsOpen := true }, [])
  | .sessionAdd name dob =>
    if anySession st then .ok ({ st with pending := st.pending ++ [(name, dob)] }, [])
    else .error .noSession
  | .sessionFlush =>
    if anySession st then flushPending st
    else .error .noSession
  | .constructDetached => .ok (st, [])
  | .sessionSelectAll =>
    if anySession st then
      match flushPending st with
      | .error e => .error e
      | .ok (st', evs) =>
        match st'.table with
        | none => .error .noSuchTable
        | some rows =>
          match rows.mapM typedRowOut with
          | none => .error .badStoredText
          | some out => .ok (st', evs ++ [.queried out])
    else .error .noSession
  | .sessionSelectIdLt bound =>
    if anySession st then
      match flushPending st with
      | .error e => .error e
      | .ok (st', evs) =>
        match st'.table with
        | none => .error .noSuchTable
        | some rows =>
          match (rows.filter (fun r => r.id < bound)).mapM typedRowOut with
          | none => .error .badStoredText
          | some out => .ok (st', evs ++ [.queried out])
    else .error .noSession
  | .sessionCommit =>
    if anySession st then flushPending st
    else .error .noSession
  | .sessionGet uid =>
    if anySession st then
      match flushPending st with
      | .error e => .error e
      | .ok (st', evs) =>
        match st'.table with
        | none => .error .noSuchTable
        | some rows =>
          match rows.find? (fun r => r.id == uid) with
          | none => .ok (st', evs ++ [.got none])
          | some r =>
            match typedRowOut r with
            | none => .error .badStoredText
            | some out => .ok (st', evs ++ [.got (some out)])
    else .error .noSession
  | .sessionClose kind =>
    match kind with
    | .orm =>
      if st.ormIsOpen then .ok ({ st with ormIsOpen := false, pending := [] }, [])
      else .error .noSession
    | .sqlmodel =>
      if st.smIsOpen then .ok ({ st with smIsOpen := false, pending := [] }, [])
      else .error .noSession

/-- Run a list of statements in order.  The first error aborts the
remainder, like an uncaught exception in a linear Python script. -/
def runOps (st : ScriptState) : List Op → Except ExecError (ScriptState × List Event)
  | [] => .ok (st, [])
  | op :: ops =>
    match step st op with
    | .error e => .error e
    | .ok (st', evs) =>
      match runOps st' ops with
      | .error e => .error e
      | .ok (st'', evs') => .ok (st'', evs ++ evs')

/-- The whole of `src/main.py` as the ordered list of its effectful
statements (source line numbers in the constructor comments above). -/
def script : List Op := [
  .connOpen,
  .execCreateTable,
  .execTextInsert [("Alice Almeron", dobRawAlice)],
  .execSelectAll,
  .execDropTable,
  .execCreateTable,
  .execCoreInsert [("Alice Almeron", dobCoreAlice), ("Bob Baker", dobCoreBob)],
  .execSelectIdLt 1000,
  .execDropTable,
  .connClose,
  .sessionOpen .orm,
  .execCreateTable,
  .sessionAdd "Alice Almeron" dobOrmAlice,
  .sessionFlush,
  .sessionAdd "Bob Baker" dobOrmBob,
  .constructDetached,
  .sessionSelectAll,
  .execDropTable,
  .sessionCommit,
  .sessionClose .orm,
  .sessionOpen .sqlmodel,
  .execCreateTable,
  .sessionAdd "Alice" dobSm,
  .sessionFlush,
  .sessionSelectIdLt 100,
  .sessionAdd "Bob" dobSm,
  .sessionCommit,
  .sessionGet 2,
  .execDropTable,
  .sessionClose .sqlmodel
]

/-- The state after executing the first `k` statements of the script
(`none` if an earlier statement failed). -/
def stateAfter (k : Nat) : Option ScriptState :=
  match runOps initState (script.take k) with
  | .ok (st, _) => some st
  | .error _ => none

/-- The event log of the whole script run. -/
def scriptEvents : List Event :=
  match runOps initState script with
  | .ok (_, evs) => evs
  | .error _ => []

/-- True when the whole script runs without any statement failing. -/
def scriptOk : Bool :=
  match runOps initState script with
  | .ok _ => true
  | .error _ => false

/-- The result sets of the four row queries of the script, in order:
raw-SQL select, core filtered select, ORM select, sqlmodel filtered
select. -/
def queryLog : List (List PyRow) :=
  scriptEvents.filterMap fun e =>
    match e with
    | .queried rows => some rows
    | _ => none

/-- The database-assigned primary keys, in assignment order. -/
def assignedLog : List Nat :=
  scriptEvents.filterMap fun e =>
    match e with
    | .assigned i => some i
    | _ => none

/-- The sequence of states the script passes through: the state before
each statement and the final state.  If a statement failed, the trace
would end there (nothing after it executes). -/
def traceFrom (st : ScriptState) : List Op → List ScriptState
  | [] => [st]
  | op :: ops =>
    st ::
      match step st op with
      | .ok (st', _) => traceFrom st' ops
      | .error _ => []

/-- Every state reached while running the script. -/
def scriptTrace : List ScriptState :=
  traceFrom initState script

/-- The three closable handles the script uses: the raw connection and
the two sessions. -/
inductive Handle where
  | conn
  | orm
  | sqlmodel
deriving DecidableEq, Repr

/-- Which handles are open in a state. -/
def openHandles (st : ScriptState) : List Handle :=
  (if st.connIsOpen then [Handle.conn] else []) ++
    (if st.ormIsOpen then [Handle.orm] else []) ++
      (if st.smIsOpen then [Handle.sqlmodel] else [])

/-- Collapse adjacent equal elements, keeping one of each run. -/
def collapseRuns {α : Type} [DecidableEq α] : List α → List α
  | [] => []
  | [a] => [a]
  | a :: b :: rest =>
    if a = b then collapseRuns (b :: rest)
    else a :: collapseRuns (b :: rest)

/-- Classification of a statement by its effect on the `user` table. -/
inductive OpKind where
  | create
  | insert
  | query
  | drop
  | other
deriving DecidableEq, Repr

/-- The kind of each statement.  Session adds count as inserts (they
insert their row at the next flush); selects and `s.get` are queries. -/
def Op.kind : Op → OpKind
  | .execCreateTable => .create
  | .execTextInsert _ => .insert
  | .execCoreInsert _ => .insert
  | .sessionAdd _ _ => .insert
  | .execSelectAll => .query
  | .execSelectIdLt _ => .query
  | .sessionSelectAll => .query
  | .sessionSelectIdLt _ => .query
  | .sessionGet _ => .query
  | .execDropTable => .drop
  | _ => .other

/-- True for the kinds that touch the table. -/
def OpKind.isTableOp : OpKind → Bool
  | .other => false
  | _ => true

/-- True when every query in the kind list is preceded by at least one
insert (the flag records whether an insert has been seen). -/
def queriesPreceded : Bool → List OpKind → Bool
  | _, [] => true
  | seen, k :: rest =>
    match k with
    | .query => seen && queriesPreceded seen rest
    | .insert => queriesPreceded true rest
    | _ => queriesPreceded seen rest

/-- The kinds of the table-touching statements of a statement list. -/
def tableKinds (ops : List Op) : List OpKind :=
  (ops.map Op.kind).filter OpKind.isTableOp

/-- The create-insert-query-drop shape of one layer of the script: its
first table statement creates the table, its last drops it, it creates
and drops exactly once, it inserts at least once, and every query
comes after some insert. -/
abbrev createInsertQueryDrop (ops : List Op) : Prop :=
  (tableKinds ops).head? = some OpKind.create ∧
  (tableKinds ops).getLast? = some OpKind.drop ∧
  (tableKinds ops).count OpKind.create = 1 ∧
  (tableKinds ops).count OpKind.drop = 1 ∧
  OpKind.insert ∈ tableKinds ops ∧
  queriesPreceded false (tableKinds ops) = true

/-- The raw-textual-SQL layer, lines 13-54 of the source. -/
def rawSqlOps : List Op := (script.drop 1).take 4

/-- The core query-builder layer, lines 59-95 of the source. -/
def coreOps : List Op := (script.drop 5).take 4

/-- The declarative-ORM session body, lines 120-141 of the source. -/
def ormOps : List Op := (script.drop 11).take 8

/-- The sqlmodel session body, lines 154-179 of the source. -/
def smOps : List Op := (script.drop 21).take 8

/-- Run one contiguous segment of the script, starting from the state
the preceding statements produced. -/
def runSegment (start len : Nat) : Option (ScriptState × List Event) :=
  match runOps initState (script.take start) with
  | .error _ => none
  | .ok (st, _) =>
    match runOps st ((script.drop start).take len) with
    | .error _ => none
    | .ok r => some r

/-- The primary keys assigned while running one segment of the script. -/
def segmentAssigned (start len : Nat) : Option (List Nat) :=
  (runSegment start len).map fun r =>
    r.2.filterMap fun e =>
      match e with
      | .assigned i => some i
      | _ => none

/-- First row the core filtered select returns: a naive datetime. -/
def coreAliceRow : PyRow := ⟨1, "Alice Almeron", PyDob.stamp (stripOffset dobCoreAlice)⟩

/-- Second row the core filtered select returns: a naive datetime. -/
def coreBobRow : PyRow := ⟨2, "Bob Baker", PyDob.stamp (stripOffset dobCoreBob)⟩

/-- Unfolding equation for `runOps` on a non-empty statement list. -/
theorem runOps_cons (st : ScriptState) (op : Op) (ops : List Op) :
    runOps st (op :: ops) =
      match step st op with
      | .error e => .error e
      | .ok (st', evs) =>
        match runOps st' ops with
        | .error e => .error e
        | .ok (st'', evs') => .ok (st'', evs ++ evs') := rfl

/-- C1: after the script ends no state persists: the final `DROP TABLE`
of the sqlmodel layer (statement 28, line 179) removes the `user`
table, so at exit the database holds no `user` table and no rows, and
every handle is closed. -/
theorem c1_no_state_at_exit :
    script[28]? = some Op.execDropTable ∧
    stateAfter 29 = some ⟨none, false, false, true, []⟩ ∧
    stateAfter script.length = some ⟨none, false, false, false, []⟩ :=
  ⟨rfl, rfl, rfl⟩

/-- C2: the whole script runs, and each of the four layers creates the
`user` table first, drops it last, creates and drops exactly once,
inserts at least one row, and only queries after having inserted. -/
theorem c2_each_layer_create_insert_query_drop :
    scriptOk = true ∧
    createInsertQueryDrop rawSqlOps ∧
    createInsertQueryDrop coreOps ∧
    createInsertQueryDrop ormOps ∧
    createInsertQueryDrop smOps := by
  decide

/-- C3: at every state the script passes through, the ids of the rows
simultaneously present in the `user` table are pairwise distinct. -/
theorem c3_ids_unique_throughout :
    ∀ st ∈ scriptTrace, ((st.table.getD []).map UserRow.id).Nodup := by
  decide

/-- Witness for C3 at the initial state of the script. -/
theorem c3_ids_unique_throughout_witness :
    initState ∈ scriptTrace ∧
    ((initState.table.getD []).map UserRow.id).Nodup :=
  ⟨by decide, c3_ids_unique_throughout initState (by decide)⟩

/-- C4: the ids are database-assigned, sequentially from 1 within each
layer lifetime of the table: the raw layer assigns [1], and the core,
ORM and sqlmodel layers each assign [1, 2], one id per inserted row
(no statement of the script ever supplies an id: `Op.execInsert` and
`Op.sessionAdd` carry only name and dob, as the source does). -/
theorem c4_ids_auto_assigned_sequentially :
    segmentAssigned 1 4 = some [1] ∧
    segmentAssigned 5 4 = some [1, 2] ∧
    segmentAssigned 11 8 = some [1, 2] ∧
    segmentAssigned 21 8 = some [1, 2] :=
  ⟨rfl, rfl, rfl, rfl⟩

/-- C6: the handles open strictly in sequence with no overlap: along
the whole trace at most one handle is open at a time, and the open
phases occur in the order raw connection, then ORM session, then
sqlmodel session, each closed before the next opens. -/
theorem c6_handles_strictly_sequential :
    collapseRuns (scriptTrace.map openHandles) =
      [[], [Handle.conn], [], [Handle.orm], [], [Handle.sqlmodel], []] := by
  decide

/-- C7: no error is caught, retried or recovered from: whenever a
statement of a statement list fails, the whole run fails with that
very error and none of the remaining statements executes. -/
theorem c7_failing_statement_aborts_rest (pre post : List Op) (op : Op)
    (st₀ st : ScriptState) (evs : List Event) (e : ExecError)
    (hpre : runOps st₀ pre = .ok (st, evs))
    (hop : step st op = .error e) :
    runOps st₀ (pre ++ op :: post) = .error e := by
  induction pre generalizing st₀ evs with
  | nil =>
    simp only [runOps, Except.ok.injEq, Prod.mk.injEq] at hpre
    obtain ⟨h1, -⟩ := hpre
    subst h1
    simp only [List.nil_append, runOps_cons, hop]
  | cons a pre ih =>
    rw [runOps_cons] at hpre
    split at hpre
    · cases hpre
    · rename_i s1 evs1 h1
      split at hpre
      · cases hpre
      · rename_i s2 evs2 h2
        simp only [Except.ok.injEq, Prod.mk.injEq] at hpre
        obtain ⟨h3, -⟩ := hpre
        subst h3
        simp only [List.cons_append, runOps_cons, h1, ih s1 evs2 h2]

/-- Witness for C7: the very first statement failing (a CREATE TABLE
with no connection open) aborts the whole remaining script. -/
theorem c7_failing_statement_aborts_rest_witness :
    runOps initState ([] : List Op) = .ok (initState, []) ∧
    step initState Op.execCreateTable = .error ExecError.notConnected ∧
    runOps initState ([] ++ Op.execCreateTable :: script) =
      .error ExecError.notConnected :=
  ⟨rfl, rfl,
    c7_failing_statement_aborts_rest [] script Op.execCreateTable
      initState initState [] ExecError.notConnected rfl rfl⟩

/-- C8: the core-layer filtered select (id < 1000, line 87) returns
exactly the two rows that layer inserted, ids 1 and 2, in insertion
order, and nothing else. -/
theorem c8_core_filtered_select_rows :
    script[7]? = some (Op.execSelectIdLt 1000) ∧
    queryLog[1]? = some [coreAliceRow, coreBobRow] :=
  ⟨rfl, rfl⟩

